import Mathlib

/-!
# Verification of the Reconciliation Scenario Engine

Shallow embedding of the reconciliation engine found under
`src/src/analysis` (`UnifiedAnalyzer`, `RuleAnalyzer`, `ContextEnricher`,
`DataFetcher`) and `src/src/data/local_db.py` (`LocalDB`), together with
theorems settling the specification claims about it.

Modelling conventions:
* Python dictionaries are association lists of `Value`s preserving insertion
  order; a key bound to Python `None` is modelled by the key being absent
  (every consumer in the engine reads dictionaries through `.get`, which
  does not distinguish a missing key from a key bound to `None`).
* Python truthiness is modelled explicitly (`Value.truthy`, `optTruthy`,
  `strOptTruthy`).
* The engine runs against its local SQLite store (`local_db.enabled`
  configuration, the path exercised by the repository's tests); the
  alternative Trino/HTTP backend is an external collaborator outside the
  specified core and is not modelled.  SQL queries of `LocalDB` become
  filters over an explicit `DB` state.
* Machine integers: SQLite integers and Python ints are unbounded, so `Int`
  is used directly.
-/

namespace Recon

/-! ## Python values and dictionaries -/

mutual

/-- A Python value as it occurs in the engine's record dictionaries:
integers, strings, booleans and nested dictionaries (floats never reach the
compared fields on the modelled paths). -/
inductive Value where
  | vInt  : Int → Value
  | vStr  : String → Value
  | vBool : Bool → Value
  | vDict : Fields → Value
  deriving DecidableEq, Repr

/-- The entries of a nested Python dictionary, in insertion order. -/
inductive Fields where
  | nil : Fields
  | cons : String → Value → Fields → Fields
  deriving DecidableEq, Repr

end

/-- A top-level Python dict with string keys, as an insertion-ordered
association list.  A key bound to `None` is modelled by absence. -/
abbrev Record := List (String × Value)

/-- Pack an association list into the entries of a nested dictionary. -/
def Fields.ofList : Record → Fields
  | [] => .nil
  | (k, v) :: rest => .cons k v (Fields.ofList rest)

/-- `d.get(k)` on a nested dictionary. -/
def Fields.get : Fields → String → Option Value
  | .nil, _ => none
  | .cons k v rest, key => if k = key then some v else rest.get key

/-- A record stored as a dictionary value (used when the engine assigns a
whole record into another record, e.g. `record["_internal_data"] = ...`). -/
def Value.ofRecord (r : Record) : Value :=
  .vDict (Fields.ofList r)

/-- `d.get(k)`: the first binding of `k`, if any (`None` for a missing key). -/
def pyGet : Record → String → Option Value
  | [], _ => none
  | (k', v) :: rest, k => if k' = k then some v else pyGet rest k

/-- `d[k] = v`: overwrite the first binding of `k` in place, else append
(Python dicts keep the original position of an existing key). -/
def pySet (r : Record) (k : String) (v : Value) : Record :=
  match r with
  | [] => [(k, v)]
  | (k', v') :: rest =>
      if k' = k then (k', v) :: rest else (k', v') :: pySet rest k v

/-- `d.update(other)`: assign every binding of `other` into `d`, in order. -/
def pyUpdate (r other : Record) : Record :=
  other.foldl (fun acc p => pySet acc p.1 p.2) r

/-- Remove every binding of the given keys (used to model dict-literal
merges `{**record_data, "recon_status": ..., ...}` observationally). -/
def eraseKeys (r : Record) (ks : List String) : Record :=
  r.filter (fun p => !ks.contains p.1)

/-- Python truthiness of a value. -/
def Value.truthy : Value → Bool
  | .vInt n => n != 0
  | .vStr s => s != ""
  | .vBool b => b
  | .vDict d => !(d matches .nil)

/-- Truthiness of an optional value (`None` is falsy). -/
def optTruthy : Option Value → Bool
  | some v => v.truthy
  | none => false

/-- Truthiness of an optional string (`None` and `""` are falsy). -/
def strOptTruthy : Option String → Bool
  | some s => s != ""
  | none => false

/-- Python `a or b` on optional values: `a` if truthy, else `b`. -/
def pyOr (a b : Option Value) : Option Value :=
  if optTruthy a then a else b

/-- `d.get(k)` where `d` is a dictionary-valued `Value` (`None` when the
value is not a dictionary; the engine guards such reads with
`isinstance(..., dict)` checks). -/
def dictGet (v : Option Value) (k : String) : Option Value :=
  match v with
  | some (.vDict f) => f.get k
  | _ => none

/-! ## Python string helpers -/

/-- Substring test: Python `needle in haystack` for strings. -/
def listInfixOf (needle : List Char) : List Char → Bool
  | [] => needle.isEmpty
  | c :: rest => needle.isPrefixOf (c :: rest) || listInfixOf needle rest

/-- Python `needle in haystack` on strings. -/
def pyIn (needle haystack : String) : Bool :=
  listInfixOf needle.data haystack.data

/-- One step of Python `str.replace`, fuelled to keep the recursion
structural (the fuel equals the subject's length, which bounds the number
of steps; the `0` case is unreachable for the actual fuel). -/
def replaceFuel (pat rep : List Char) : Nat → List Char → List Char
  | 0, s => s
  | _ + 1, [] => []
  | fuel + 1, c :: rest =>
      if pat.isPrefixOf (c :: rest) then
        rep ++ replaceFuel pat rep fuel ((c :: rest).drop pat.length)
      else
        c :: replaceFuel pat rep fuel rest

/-- Python `s.replace(pat, rep)`: replace all non-overlapping occurrences,
scanning left to right, without rescanning the replacement text.  The
engine only substitutes non-empty digit tokens, so the empty pattern
(which Python treats specially) is returned unchanged. -/
def pyReplace (s pat rep : String) : String :=
  if pat = "" then s
  else ⟨replaceFuel pat.data rep.data s.data.length s.data⟩

/-- The numeric value of a run of decimal digits (Python `int`). -/
def digitsToNat (run : List Char) : Nat :=
  run.foldl (fun acc c => 10 * acc + (c.toNat - '0'.toNat)) 0

/-- Maximal runs of decimal digits, left to right: `re.findall(r"\d+", s)`
on the ASCII expressions the engine stores.  `acc` is the current run,
reversed. -/
def digitRunsAux (acc : List Char) : List Char → List (List Char)
  | [] => if acc.isEmpty then [] else [acc.reverse]
  | c :: rest =>
      if c.isDigit then digitRunsAux (c :: acc) rest
      else if acc.isEmpty then digitRunsAux [] rest
      else acc.reverse :: digitRunsAux [] rest

/-- `[int(m) for m in re.findall(r"\d+", s)]`: every maximal digit run of
`s`, as a number. -/
def extractRuleIds (s : String) : List Nat :=
  (digitRunsAux [] s.data).map digitsToNat

/-- Python `str(...)` of a value in an f-string (nested dictionaries never
reach the engine's formatted positions on the modelled paths, and are
rendered with Python's brace syntax escaped per source). -/
def pyStrValue : Value → String
  | .vInt n => toString n
  | .vStr s => s
  | .vBool b => if b then "True" else "False"
  | .vDict _ => "\x7b...\x7d"

/-- Formatting of an optional value: Python prints `None` for `None`. -/
def pyStrOpt : Option Value → String
  | some v => pyStrValue v
  | none => "None"

/-- A stable insertion of `x` into `l`, placing `x` before the first
element it is `le`-below-or-equal to (so equal keys keep their original
relative order, as in Python's stable sort and SQLite's `ORDER BY`). -/
def insertLe (le : α → α → Bool) (x : α) : List α → List α
  | [] => [x]
  | y :: ys => if le x y then x :: y :: ys else y :: insertLe le x ys

/-- Stable sort by a boolean `le` relation. -/
def sortLe (le : α → α → Bool) : List α → List α
  | [] => []
  | x :: xs => insertLe le x (sortLe le xs)

/-- The characters of a string, as one-character strings: Python iterating
over a string (`params.extend(string)`) yields its characters. -/
def charsOf (s : String) : List String :=
  s.data.map (fun c => String.mk [c])

/-- Python `s.lower()` on the ASCII names/categories the engine compares
(character-wise, kept kernel-evaluable). -/
def pyLower (s : String) : String :=
  ⟨s.data.map Char.toLower⟩

end Recon

namespace Recon

/-! ## Data model: the local store (`src/src/data/local_db.py`)

One structure per SQLite table, one field per column (a nullable column
becomes an `Option`).  `other_data` / `record_data` JSON columns are kept
as already-parsed dictionaries. -/

/-- A row of `file_types`.  `fileMetadata` is the parsed JSON list of
`{name, value}` entries scanned by `get_unique_column`.  `name` and
`sourceCategory` are non-null in every workspace the engine analyses (a
SQL `NULL` would raise in `.lower()` before any scenario logic runs). -/
structure FileType where
  id : String
  workspaceId : String
  name : String
  sourceCategory : String
  fileMetadata : List (String × String)
  deletedAt : Option String := none
  deriving DecidableEq, Repr

/-- A row of the `journal` table. -/
structure JournalRow where
  fileTypeId : String
  recordData : Record
  reconStatus : Option String := none
  reconAt : Option String := none
  entityId : Option String := none
  entityType : Option String := none
  artRemarks : Option String := none
  txnDate : Option String := none
  rowHash : Option String := none
  deriving DecidableEq, Repr

/-- A row of the `transactions` table (`type` is named `txnType`). -/
structure TransactionRow where
  id : String
  entityId : Option String := none
  merchantId : Option String := none
  txnType : Option String := none
  amount : Option Int := none
  fee : Option Int := none
  currency : Option String := none
  reconciledAt : Option String := none
  reconciledType : Option String := none
  createdAt : Option Int := none
  updatedAt : Option Int := none
  createdDate : Option String := none
  otherData : Record := []
  deriving DecidableEq, Repr

/-- A row of the `payments` table. -/
structure PaymentRow where
  id : String
  merchantId : Option String := none
  amount : Option Int := none
  currency : Option String := none
  method : Option String := none
  status : Option String := none
  createdAt : Option Int := none
  updatedAt : Option Int := none
  datalakeUpdatedAt : Option Int := none
  createdDate : Option String := none
  otherData : Record := []
  deriving DecidableEq, Repr

/-- A row of the `rules` table (the named sub-rules). -/
structure RuleRow where
  id : Nat
  workspaceId : String
  rule : String
  fileType1Id : Option String := none
  fileType2Id : Option String := none
  isSelfRule : Bool := false
  deletedAt : Option String := none
  deriving DecidableEq, Repr

/-- A row of `rule_recon_state_map` joined with `recon_state`, plus the two
fields (`resolved_expression`, `rule_ids`) that `_resolve_rule_expressions`
adds; before resolution those read back as their `.get` defaults. -/
structure RRSMEntry where
  id : Nat
  workspaceId : String := ""
  ruleExpression : String
  fileType1Id : Option String := none
  fileType2Id : Option String := none
  reconStateId : Nat := 0
  seqNumber : Option Int := none
  reconState : Option String := none
  artRemarks : Option String := none
  resolvedExpression : String := ""
  ruleIds : List Nat := []
  deletedAt : Option String := none
  deriving DecidableEq, Repr

/-- A row of `recon_state`. -/
structure ReconStateRow where
  id : Nat
  state : Option String := none
  rank : Option Int := none
  isInternal : Bool := false
  parentId : Option Nat := none
  artRemarks : Option String := none
  deletedAt : Option String := none
  deriving DecidableEq, Repr

/-- The local store's state (only the tables the engine reads). -/
structure DB where
  fileTypes : List FileType := []
  journal : List JournalRow := []
  transactions : List TransactionRow := []
  payments : List PaymentRow := []
  rules : List RuleRow := []
  ruleReconStateMap : List RRSMEntry := []
  reconStates : List ReconStateRow := []
  deriving Repr

/-! ## `LocalDB` queries -/

/-- `LocalDB.get_unique_column`: look the file type up by id (no workspace
or deletion filter in the source query) and scan its metadata for the
first `unique_column` entry. -/
def getUniqueColumn (db : DB) (fileTypeId : String) : Option String :=
  match db.fileTypes.find? (fun ft => ft.id = fileTypeId) with
  | some ft =>
      match ft.fileMetadata.find? (fun m => m.1 = "unique_column") with
      | some m => some m.2
      | none => none
  | none => none

/-- `LocalDB.query_file_types` (without the optional id filter, the only
form the enrichment path uses). -/
def queryFileTypes (db : DB) (workspaceId : String) : List FileType :=
  db.fileTypes.filter (fun ft => ft.workspaceId = workspaceId && ft.deletedAt = none)

/-- Does an optional text column match one of the `IN (...)` parameters?
(`NULL` never matches.) -/
def optStrMem (col : Option String) (params : List String) : Bool :=
  match col with
  | some s => params.contains s
  | none => false

/-- `LocalDB.query_rules`: the named sub-rules of a workspace, optionally
scoped to rules touching the given file types.  The Python caller receives
a dict keyed by rule id (ids are the table's primary key). -/
def queryRules (db : DB) (workspaceId : String) (fileTypeIds : Option (List String)) :
    List RuleRow :=
  db.rules.filter (fun r =>
    r.workspaceId = workspaceId && r.deletedAt = none &&
      (match fileTypeIds with
       | some ids => optStrMem r.fileType1Id ids || optStrMem r.fileType2Id ids
       | none => true))

/-- `rules[rule_id]` / `rule_id in rules` on the id-keyed dict. -/
def findRule (rules : List RuleRow) (ruleId : Nat) : Option RuleRow :=
  rules.find? (fun r => r.id = ruleId)

/-- `ORDER BY seq_number` in SQLite: ascending with `NULL` first. -/
def seqLeSql (a b : Option Int) : Bool :=
  match a, b with
  | none, _ => true
  | some _, none => false
  | some x, some y => x ≤ y

/-- `LocalDB.query_rule_recon_state_map`: inner-join `rule_recon_state_map`
with `recon_state` (an entry without a live state row is dropped), apply
the workspace / deletion / scoping filters, and order by `seq_number`.
The join copies `state` and `art_remarks` onto the entry. -/
def queryRuleReconStateMap (db : DB) (workspaceId : String)
    (fileTypeIds : Option (List String)) : List RRSMEntry :=
  sortLe (fun a b => seqLeSql a.seqNumber b.seqNumber)
    ((db.ruleReconStateMap.filterMap (fun e =>
      match db.reconStates.find? (fun rs => rs.id = e.reconStateId) with
      | some rs =>
          if e.workspaceId = workspaceId && e.deletedAt = none && rs.deletedAt = none &&
              (match fileTypeIds with
               | some ids =>
                   (optStrMem e.fileType1Id ids && optStrMem e.fileType2Id ids) ||
                     (e.fileType1Id = e.fileType2Id && optStrMem e.fileType1Id ids)
               | none => true) then
            some { e with reconState := rs.state, artRemarks := rs.artRemarks }
          else none
      | none => none)))

/-- Does a `journal.entity_id` text column equal one of the `IN (...)`
parameter values?  SQLite compares by type, so only a string parameter can
match a text column, and `NULL` matches nothing. -/
def entityIdMatches (col : Option String) (vals : List Value) : Bool :=
  match col with
  | some s => vals.contains (.vStr s)
  | none => false

/-- `LocalDB.query_journal_records`: filter the journal by file type, the
optional entity-id list, date bounds (SQLite text comparison; `NULL` dates
never satisfy a bound), recon status, and finally by the unique-column
value inside `record_data` (rows whose `record_data` is empty, or whose
file type has no unique column, pass that last filter untouched, exactly
as in the source's post-fetch loop). -/
def queryJournalRecords (db : DB) (fileTypeId : String)
    (entityIds : List Value := []) (txnDateStart : Option String := none)
    (txnDateEnd : Option String := none) (reconStatus : Option String := none)
    (uniqueColumnValue : Option Value := none) : List JournalRow :=
  (db.journal.filter (fun j =>
    j.fileTypeId = fileTypeId &&
    (entityIds.isEmpty || entityIdMatches j.entityId entityIds) &&
    (match txnDateStart with
     | some d => match j.txnDate with
       | some t => d ≤ t
       | none => false
     | none => true) &&
    (match txnDateEnd with
     | some d => match j.txnDate with
       | some t => t ≤ d
       | none => false
     | none => true) &&
    (if strOptTruthy reconStatus then j.reconStatus = reconStatus else true))).filter
  (fun j =>
    if optTruthy uniqueColumnValue then
      match getUniqueColumn db fileTypeId with
      | some col =>
          if col != "" && !j.recordData.isEmpty then
            pyGet j.recordData col = uniqueColumnValue
          else true
      | none => true
    else true)

/-- The journal columns merged over `record_data` by
`DataFetcher.fetch_journal_records` (local path). -/
def journalFixedKeys : List String :=
  ["file_type_id", "recon_status", "recon_at", "entity_id", "entity_type",
   "art_remarks", "txn_date", "row_hash"]

/-- Append a binding only when the column is non-null. -/
def optBinding (k : String) (v : Option String) : Record :=
  match v with
  | some s => [(k, .vStr s)]
  | none => []

/-- The formatted record `{**record_data, "file_type_id": ..., ...}` built
by `DataFetcher.fetch_journal_records`: the journal columns override any
same-named `record_data` keys (observationally under `.get`; a column that
is `NULL` leaves the key absent per the `Record` convention). -/
def formatJournal (j : JournalRow) : Record :=
  eraseKeys j.recordData journalFixedKeys ++
    [("file_type_id", .vStr j.fileTypeId)] ++
    optBinding "recon_status" j.reconStatus ++
    optBinding "recon_at" j.reconAt ++
    optBinding "entity_id" j.entityId ++
    optBinding "entity_type" j.entityType ++
    optBinding "art_remarks" j.artRemarks ++
    optBinding "txn_date" j.txnDate ++
    optBinding "row_hash" j.rowHash

/-- `DataFetcher.fetch_journal_records` on the local store: query, then
format each row.  The local path always reports `success=True`, so the
result is just the record list. -/
def fetchJournalRecords (db : DB) (fileTypeId : String)
    (entityIds : List Value := []) (txnDateStart : Option String := none)
    (txnDateEnd : Option String := none) (reconStatus : Option String := none)
    (uniqueColumnValue : Option Value := none) : List Record :=
  (queryJournalRecords db fileTypeId entityIds txnDateStart txnDateEnd
    reconStatus uniqueColumnValue).map formatJournal

/-- An integer binding, absent when `NULL`. -/
def optIntBinding (k : String) (v : Option Int) : Record :=
  match v with
  | some n => [(k, .vInt n)]
  | none => []

/-- `dict(row)` for a `transactions` row, with `other_data` merged on top
(`result.update(other_data)` overrides columns). -/
def txnRowToRecord (t : TransactionRow) : Record :=
  pyUpdate
    ([("id", .vStr t.id)] ++
      optBinding "entity_id" t.entityId ++
      optBinding "merchant_id" t.merchantId ++
      optBinding "type" t.txnType ++
      optIntBinding "amount" t.amount ++
      optIntBinding "fee" t.fee ++
      optBinding "currency" t.currency ++
      optBinding "reconciled_at" t.reconciledAt ++
      optBinding "reconciled_type" t.reconciledType ++
      optIntBinding "created_at" t.createdAt ++
      optIntBinding "updated_at" t.updatedAt ++
      optBinding "created_date" t.createdDate)
    t.otherData

/-- `LocalDB.query_transactions`.  `entityIds` are the `IN (...)`
parameters exactly as Python builds them (`params.extend(entity_ids)`), an
empty list meaning no filter (falsy argument); `check_reconciled_at`
defaults to `True` in the source and adds `reconciled_at IS NULL`. -/
def queryTransactions (db : DB) (entityIds : List String)
    (checkReconciledAt : Bool := true) (reconciledType : Option String := none) :
    List Record :=
  (db.transactions.filter (fun t =>
    (entityIds.isEmpty || optStrMem t.entityId entityIds) &&
    (!checkReconciledAt || t.reconciledAt = none) &&
    (if strOptTruthy reconciledType then t.reconciledType = reconciledType else true))).map
  txnRowToRecord

/-- `dict(row)` for a `payments` row, with `other_data` merged on top. -/
def paymentRowToRecord (p : PaymentRow) : Record :=
  pyUpdate
    ([("id", .vStr p.id)] ++
      optBinding "merchant_id" p.merchantId ++
      optIntBinding "amount" p.amount ++
      optBinding "currency" p.currency ++
      optBinding "method" p.method ++
      optBinding "status" p.status ++
      optIntBinding "created_at" p.createdAt ++
      optIntBinding "updated_at" p.updatedAt ++
      optIntBinding "_datalake_updated_at" p.datalakeUpdatedAt ++
      optBinding "created_date" p.createdDate)
    p.otherData

/-- `LocalDB.query_payments`: filter by `id IN (...)` when the parameter
list is non-empty (falsy otherwise). -/
def queryPayments (db : DB) (paymentIds : List String) : List Record :=
  (db.payments.filter (fun p =>
    paymentIds.isEmpty || paymentIds.contains p.id)).map paymentRowToRecord

end Recon

namespace Recon

/-! ## `ContextEnricher` (`src/src/analysis/context_enricher.py`) -/

/-- The enriched context (`workspace` carries no engine logic and is
omitted; the four fields the analyzers read are kept). -/
structure Context where
  fileTypes : List FileType := []
  rules : List RuleRow := []
  ruleReconStateMap : List RRSMEntry := []
  resolvedRules : List RRSMEntry := []
  deriving Repr

/-- `ContextEnricher._resolve_rule_expressions`: for each map entry with a
truthy `rule_expression`, extract every maximal digit run, and for each
extracted id found in the rules dict replace its decimal text throughout
the working expression with the sub-rule's text in parentheses (plain
`str.replace`, i.e. substring replacement).  Entries with a falsy
expression are skipped entirely. -/
def resolveRuleExpressions (ruleReconStateMap : List RRSMEntry)
    (rules : List RuleRow) : List RRSMEntry :=
  ruleReconStateMap.filterMap (fun e =>
    if e.ruleExpression = "" then none
    else
      let ruleIds := extractRuleIds e.ruleExpression
      let resolved := ruleIds.foldl (fun acc ruleId =>
        match findRule rules ruleId with
        | some r => pyReplace acc (toString ruleId) ("(" ++ r.rule ++ ")")
        | none => acc) e.ruleExpression
      some { e with resolvedExpression := resolved, ruleIds := ruleIds })

/-- `ContextEnricher.enrich` on the local store (cache behaviour is
transparent: the cached value is the value of this pure function). -/
def enrich (db : DB) (workspaceId : String) : Context :=
  let fileTypes := queryFileTypes db workspaceId
  let fileTypeIds :=
    if fileTypes.isEmpty then none
    else some ((fileTypes.map (·.id)).filter (· != ""))
  let rules := queryRules db workspaceId fileTypeIds
  let rrsm := queryRuleReconStateMap db workspaceId fileTypeIds
  { fileTypes := fileTypes
    rules := rules
    ruleReconStateMap := rrsm
    resolvedRules := resolveRuleExpressions rrsm rules }

/-- Python `==` between an optional string (a ruleset column) and an
optional record value: `None == None` is `True`; a string equals a string
value with the same text; every other combination is `False`. -/
def optEqSV (a : Option String) (b : Option Value) : Bool :=
  match a, b with
  | none, none => true
  | some s, some (.vStr t) => s = t
  | _, _ => false

/-- `ContextEnricher.get_resolved_rules_for_file_types`: keep the rules
scoped to the (unordered) file-type pair, or self-rules touching either
type (the self-rule test only runs when the pair test failed), then sort
stably by `seq_number` with `None` mapped to 999. -/
def getResolvedRulesForFileTypes (context : Context)
    (fileType1Id fileType2Id : Option Value) : List RRSMEntry :=
  sortLe (fun a b => a.seqNumber.getD 999 ≤ b.seqNumber.getD 999)
    (context.resolvedRules.filter (fun r =>
      if (optEqSV r.fileType1Id fileType1Id && optEqSV r.fileType2Id fileType2Id) ||
          (optEqSV r.fileType1Id fileType2Id && optEqSV r.fileType2Id fileType1Id) then
        true
      else
        r.fileType1Id = r.fileType2Id &&
          (optEqSV r.fileType1Id fileType1Id || optEqSV r.fileType1Id fileType2Id)))

/-! ## `RuleAnalyzer` (`src/src/analysis/rule_analyzer.py`) -/

/-- The amount read by `_evaluate_rule`:
`data.get("amount") or data.get("abs_amount")`. -/
def resolveAmount (data : Record) : Option Value :=
  pyOr (pyGet data "amount") (pyGet data "abs_amount")

/-- The reference read by `_evaluate_rule`:
`data.get("rrn") or data.get("payment_id")`. -/
def resolveRrn (data : Record) : Option Value :=
  pyOr (pyGet data "rrn") (pyGet data "payment_id")

/-- The `{"internal": a, "mis": b}` detail dict of one mismatch; an
optional side is a Python `None` (key absent per the `Record` convention). -/
def mismatchPair (a b : Option Value) : Value :=
  .vDict (Fields.ofList ((optValBinding "internal" a) ++ (optValBinding "mis" b)))
where
  optValBinding (k : String) : Option Value → Record
    | some v => [(k, v)]
    | none => []

/-- `RuleAnalyzer._evaluate_rule`: the deliberately simplified two-predicate
comparison.  The rule expression argument is accepted and ignored, exactly
as in the source.  Amounts are compared only when both are non-`None`;
references are always compared (`None != x` follows Python).  The rule
passes iff the mismatch dict is empty. -/
def evaluateRule (ruleExpression : String) (internalData misData : Record) :
    Bool × Record :=
  let _ := ruleExpression
  let internalAmount := resolveAmount internalData
  let misAmount := resolveAmount misData
  let amountEntries : Record :=
    if internalAmount ≠ none && misAmount ≠ none && internalAmount ≠ misAmount then
      [("amount_mismatch", mismatchPair internalAmount misAmount)]
    else []
  let internalRrn := resolveRrn internalData
  let misRrn := resolveRrn misData
  let rrnEntries : Record :=
    if internalRrn ≠ misRrn then
      [("rrn_mismatch", mismatchPair internalRrn misRrn)]
    else []
  let mismatchDetails := amountEntries ++ rrnEntries
  (mismatchDetails.isEmpty, mismatchDetails)

/-- `RuleAnalyzer._map_to_art_remarks` with no LLM configured (the
AI-powered branch is an external collaborator; without it the source falls
back to the deterministic rule-based remarks).  The failed-rule fallback
line reads `rule.get("expression", "Unknown reason")`, and both call sites
pass a dict keyed `"rule"`, so that default always fires. -/
def mapToArtRemarks (rule : Record) (mismatchDetails : Record) : String :=
  let remarks : List String :=
    (if (pyGet mismatchDetails "amount_mismatch").isSome then
      let amountInfo := pyGet mismatchDetails "amount_mismatch"
      ["Amount mismatch: Internal=" ++ pyStrOpt (dictGet amountInfo "internal") ++
        ", MIS=" ++ pyStrOpt (dictGet amountInfo "mis")]
    else []) ++
    (if (pyGet mismatchDetails "rrn_mismatch").isSome then
      let rrnInfo := pyGet mismatchDetails "rrn_mismatch"
      ["RRN/Payment ID mismatch: Internal=" ++ pyStrOpt (dictGet rrnInfo "internal") ++
        ", MIS=" ++ pyStrOpt (dictGet rrnInfo "mis")]
    else [])
  let remarks :=
    if remarks.isEmpty then
      ["Rule " ++ pyStrOpt (pyGet rule "id") ++ " failed: Unknown reason"]
    else remarks
  String.intercalate "; " remarks

end Recon

namespace Recon

/-! ## `RuleAnalyzer._get_internal_and_mis_data` -/

/-- `record.get(unique_col)` falling back to `record["record_data"].get(...)`
(the `record_data` sub-dict branch; a JSON string there is out of the
modelled paths — formatted journal records never carry a `record_data`
key). -/
def getTopOrRecordData (record : Record) (key : String) : Option Value :=
  let top := pyGet record key
  if optTruthy top then top else dictGet (pyGet record "record_data") key

/-- The entity-id extraction of `_get_internal_and_mis_data` (lines
279-325): prefer the record's own unique column, then the common entity-id
field names, checking the top level before the `record_data` sub-dict. -/
def extractEntityForData (db : DB) (record : Record) : Option Value :=
  let fileTypeIdVal := pyGet record "file_type_id"
  let fromUniqueCol :=
    if optTruthy fileTypeIdVal then
      let uniqueCol :=
        match fileTypeIdVal with
        | some (.vStr fid) => getUniqueColumn db fid
        | _ => none
      if strOptTruthy uniqueCol then
        getTopOrRecordData record (uniqueCol.getD "")
      else none
    else none
  if optTruthy fromUniqueCol then fromUniqueCol
  else
    let top := pyOr (pyGet record "entity_id")
      (pyOr (pyGet record "extracted_payment_id")
        (pyOr (pyGet record "pay_id") (pyGet record "rzp_entity_id")))
    if optTruthy top then top
    else
      let sub := pyOr (dictGet (pyGet record "record_data") "entity_id")
        (pyOr (dictGet (pyGet record "record_data") "extracted_payment_id")
          (pyOr (dictGet (pyGet record "record_data") "pay_id")
            (dictGet (pyGet record "record_data") "rzp_entity_id")))
      sub

/-- The internal/MIS file-type classification fold of
`_get_internal_and_mis_data` (lines 342-362): `source_category` substring
tests first, name-based fallback otherwise; a candidate is replaced when
none was chosen yet or when the type is the record's own. -/
def classifyFileTypes (fileTypes : List FileType) (recordFileTypeId : Option Value) :
    Option String × Option String :=
  fileTypes.foldl (fun (acc : Option String × Option String) ft =>
    let (internalFt, misFt) := acc
    let sourceCategory := (pyLower ft.sourceCategory)
    let takeIt (cur : Option String) : Option String :=
      if cur.isNone || optEqSV (some ft.id) recordFileTypeId then some ft.id else cur
    if pyIn "internal" sourceCategory then (takeIt internalFt, misFt)
    else if pyIn "bank" sourceCategory || pyIn "mis" sourceCategory then
      (internalFt, takeIt misFt)
    else
      let fileTypeName := (pyLower ft.name)
      if pyIn "rzp" fileTypeName && pyIn "payment_report" fileTypeName then
        (takeIt internalFt, misFt)
      else if pyIn "bank" fileTypeName || pyIn "mis" fileTypeName then
        (internalFt, takeIt misFt)
      else (internalFt, misFt)) (none, none)

/-- Fetch the journal record of one side: by the side's unique column when
it has one, by `entity_ids=[entity_id]` otherwise; the first formatted
record, if any. -/
def fetchSideRecord (db : DB) (fileTypeId : String) (entityId : Option Value) :
    Option Record :=
  let uniqueCol := getUniqueColumn db fileTypeId
  let records :=
    if strOptTruthy uniqueCol then
      fetchJournalRecords db fileTypeId [] none none none entityId
    else
      fetchJournalRecords db fileTypeId (entityId.toList) none none none none
  records.head?

/-- `RuleAnalyzer._get_internal_and_mis_data`: extract the entity id, pick
an internal and a MIS file type from the enriched context, and fetch one
journal record from each side for that entity. -/
def getInternalAndMisData (db : DB) (workspaceId : String) (record : Record) :
    Option Record × Option Record :=
  let entityId := extractEntityForData db record
  if !optTruthy entityId then (none, none)
  else
    let context := enrich db workspaceId
    let recordFileTypeId := pyGet record "file_type_id"
    let (internalFtId, misFtId) := classifyFileTypes context.fileTypes recordFileTypeId
    let internalData :=
      match internalFtId with
      | some ftId => if ftId ≠ "" then fetchSideRecord db ftId entityId else none
      | none => none
    let misData :=
      match misFtId with
      | some ftId => if ftId ≠ "" then fetchSideRecord db ftId entityId else none
      | none => none
    (internalData, misData)

/-- `RuleAnalyzer._has_both_internal_and_mis`: both sides found. -/
def hasBothInternalAndMis (db : DB) (workspaceId : String) (record : Record) :
    Bool × Option Record × Option Record :=
  let (internalData, misData) := getInternalAndMisData db workspaceId record
  (internalData.isSome && misData.isSome, internalData, misData)

/-! ## `UnifiedAnalyzer` (`src/src/analysis/unified_analyzer.py`) -/

/-- A finding, with one optional field per scenario-specific key of the
source's finding dicts.  The free-text `suggestion` strings (English
sentences, one of which interpolates a float with `:.2f` formatting) are
presentation-only and not modelled. -/
structure Finding where
  scenario : String
  entityId : Option Value := none
  fileTypeId : Option String := none
  issue : String
  reconStatus : Option Value := none
  reconAtInJournal : Option Value := none
  paymentExists : Option Bool := none
  dataLagDetected : Option Bool := none
  lagSeconds : Option Int := none
  failedRuleId : Option Nat := none
  failedRuleExpression : Option String := none
  mismatchDetails : Option Record := none
  suggestedArtRemarks : Option String := none
  deriving DecidableEq, Repr

/-- The result dict of `UnifiedAnalyzer.analyze`. -/
structure AnalyzeResult where
  success : Bool
  error : Option String := none
  findings : List Finding := []
  scenariosDetected : List String := []
  fileTypeRecordCounts : List (String × Nat) := []
  uniqueColumnValue : Option String := none
  deriving DecidableEq, Repr

/-- An early-return error result: `{"success": False, "error": ..., "findings": []}`. -/
def errResult (e : String) : AnalyzeResult :=
  { success := false, error := some e }

/-- `file_type_records.get(ft_id)`, empty when absent (only non-empty
record lists are ever stored). -/
def lookupBucket (fileTypeRecords : List (String × List Record)) (fileTypeId : String) :
    List Record :=
  match fileTypeRecords.find? (fun p => p.1 = fileTypeId) with
  | some p => p.2
  | none => []

/-- The findings `_analyze_scenario_a` emits for one journal record: for a
`Reconciled` record with a truthy entity id, look the transactions table
up.  The source passes the entity id *string* as the `entity_ids`
parameter, so the SQL `IN` receives the string's characters (`charsOf`),
and `check_reconciled_at` keeps its default `True` (adding
`reconciled_at IS NULL`).  A non-string entity id cannot occur here:
formatted journal records carry the text `entity_id` column. -/
def scenarioARecordFindings (db : DB) (fileTypeId : String) (record : Record) :
    List Finding :=
  if pyGet record "recon_status" = some (.vStr "Reconciled") then
    match pyGet record "entity_id" with
    | some (.vStr entityId) =>
        if entityId ≠ "" then
          match queryTransactions db (charsOf entityId) true none with
          | transaction :: _ =>
              if !optTruthy (pyGet transaction "reconciled_at") then
                [{ scenario := "A", entityId := some (.vStr entityId),
                   fileTypeId := some fileTypeId, issue := "recon_at_not_updated",
                   reconStatus := pyGet record "recon_status",
                   reconAtInJournal := pyGet record "recon_at" }]
              else []
          | [] =>
              [{ scenario := "A", entityId := some (.vStr entityId),
                 fileTypeId := some fileTypeId, issue := "transaction_record_missing",
                 reconStatus := pyGet record "recon_status",
                 reconAtInJournal := pyGet record "recon_at" }]
        else []
    | _ => []
  else []

/-- `UnifiedAnalyzer._analyze_scenario_a` over the whole joined map. -/
def analyzeScenarioA (db : DB) (fileTypeRecords : List (String × List Record)) :
    List Finding :=
  fileTypeRecords.foldl (fun acc p =>
    acc ++ p.2.foldl (fun acc2 r => acc2 ++ scenarioARecordFindings db p.1 r) []) []

/-- A value read as a Python number for arithmetic (`bool` is an `int`
subtype; anything else raises `TypeError`). -/
def toPyNum : Option Value → Option Int
  | some (.vInt n) => some n
  | some (.vBool b) => some (if b then 1 else 0)
  | _ => none

/-- `UnifiedAnalyzer._analyze_scenario_b`: with MIS-only data, consult the
payments table.  The source passes the unique-column value *string* as the
`payment_ids` parameter, so the SQL `IN` receives its characters
(`charsOf`).  When both update timestamps are present, a non-numeric
operand of the subtraction takes the `TypeError` branch
(`internal_data_missing`); when either is `None` no finding is emitted at
all (the source has no `else` for that guard). -/
def analyzeScenarioB (db : DB) (fileTypeRecords : List (String × List Record))
    (misFileTypeIds internalFileTypeIds : List String) (uniqueColumnValue : String) :
    List Finding :=
  let hasMis := misFileTypeIds.any (fun i => !(lookupBucket fileTypeRecords i).isEmpty)
  let hasInternal :=
    internalFileTypeIds.any (fun i => !(lookupBucket fileTypeRecords i).isEmpty)
  if hasMis && !hasInternal then
    let misRecord := (misFileTypeIds.filterMap
      (fun i => (lookupBucket fileTypeRecords i).head?)).head?
    match misRecord with
    | some r =>
        if !r.isEmpty then
          match queryPayments db (charsOf uniqueColumnValue) with
          | [] =>
              [{ scenario := "B", entityId := some (.vStr uniqueColumnValue),
                 issue := "payment_not_found", paymentExists := some false,
                 dataLagDetected := some false }]
          | paymentInfo :: _ =>
              let updatedAt := pyGet paymentInfo "updated_at"
              let datalakeUpdatedAt := pyGet paymentInfo "_datalake_updated_at"
              if updatedAt ≠ none && datalakeUpdatedAt ≠ none then
                match toPyNum updatedAt, toPyNum datalakeUpdatedAt with
                | some a, some b =>
                    let lagSeconds := |a - b|
                    if lagSeconds != 0 && lagSeconds > 3600 then
                      [{ scenario := "B", entityId := some (.vStr uniqueColumnValue),
                         issue := "data_lag_detected", paymentExists := some true,
                         dataLagDetected := some true, lagSeconds := some lagSeconds }]
                    else
                      [{ scenario := "B", entityId := some (.vStr uniqueColumnValue),
                         issue := "internal_data_missing", paymentExists := some true,
                         dataLagDetected := some false }]
                | _, _ =>
                    [{ scenario := "B", entityId := some (.vStr uniqueColumnValue),
                       issue := "internal_data_missing", paymentExists := some true,
                       dataLagDetected := some false }]
              else []
        else []
    | none => []
  else []

/-- The Scenario C finding for a failed rule (the `rule` dict handed to the
remarks generator is `{"id": ..., "rule": resolved_expression}`). -/
def scenarioCFinding (uniqueColumnValue : String) (r : RRSMEntry) (mm : Record) :
    Finding :=
  { scenario := "C", entityId := some (.vStr uniqueColumnValue),
    issue := "rule_matching_failure", failedRuleId := some r.id,
    failedRuleExpression := some r.resolvedExpression, mismatchDetails := some mm,
    suggestedArtRemarks := some (mapToArtRemarks
      [("id", .vInt r.id), ("rule", .vStr r.resolvedExpression)] mm) }

/-- The rule-evaluation loop of `_analyze_scenario_c` (lines 497-524): skip
rules with a falsy resolved expression, evaluate the rest in order, and on
the first failure emit one finding and `break`. -/
def scenarioCRuleLoop (rules : List RRSMEntry) (internalData misData : Record)
    (uniqueColumnValue : String) : List Finding :=
  match rules with
  | [] => []
  | r :: rest =>
      if r.resolvedExpression = "" then
        scenarioCRuleLoop rest internalData misData uniqueColumnValue
      else
        let (rulePassed, mismatchDetails) :=
          evaluateRule r.resolvedExpression internalData misData
        if rulePassed then
          scenarioCRuleLoop rest internalData misData uniqueColumnValue
        else [scenarioCFinding uniqueColumnValue r mismatchDetails]

/-- `UnifiedAnalyzer._analyze_scenario_c`: gather both sides' records,
require an `Unreconciled` one, re-fetch the pair through
`_has_both_internal_and_mis`, resolve the applicable rules for the pair
(falling back to the full resolved set) and run the first-failure loop. -/
def analyzeScenarioC (db : DB) (workspaceId : String)
    (fileTypeRecords : List (String × List Record))
    (misFileTypeIds internalFileTypeIds : List String) (uniqueColumnValue : String) :
    List Finding :=
  let misRecords := misFileTypeIds.foldl
    (fun acc i => acc ++ lookupBucket fileTypeRecords i) []
  let internalRecords := internalFileTypeIds.foldl
    (fun acc i => acc ++ lookupBucket fileTypeRecords i) []
  if !misRecords.isEmpty && !internalRecords.isEmpty then
    let unreconciledMis := misRecords.filter
      (fun r => pyGet r "recon_status" = some (.vStr "Unreconciled"))
    let unreconciledInternal := internalRecords.filter
      (fun r => pyGet r "recon_status" = some (.vStr "Unreconciled"))
    if !unreconciledMis.isEmpty || !unreconciledInternal.isEmpty then
      let combinedRecord := (unreconciledMis ++ misRecords).headD []
      let (hasBoth, internalData, misData) :=
        hasBothInternalAndMis db workspaceId combinedRecord
      match hasBoth, internalData, misData with
      | true, some idata, some mdata =>
          if !idata.isEmpty && !mdata.isEmpty then
            let context := enrich db workspaceId
            let fileType1Id := pyGet idata "file_type_id"
            let fileType2Id := pyGet mdata "file_type_id"
            let applicableRules :=
              getResolvedRulesForFileTypes context fileType1Id fileType2Id
            let applicableRules :=
              if applicableRules.isEmpty then context.resolvedRules
              else applicableRules
            scenarioCRuleLoop applicableRules idata mdata uniqueColumnValue
          else []
      | _, _, _ => []
    else []
  else []

end Recon

namespace Recon

/-- `UnifiedAnalyzer.analyze`.  The spreadsheet extraction
(`_extract_unique_column_value`, a pandas file read) is an input here:
`outputFilePathProvided` says whether a path was passed and
`extractedValue` is what the extraction would return for it (`None`
models a missing/unreadable file or column).  `transactionDateRange` is
accepted and, as in the source, never used by the fetch or the scenarios.
Error messages keep the source's wording with quote characters elided. -/
def analyze (db : DB) (workspaceId fileTypeName : String)
    (outputFilePathProvided : Bool := false) (extractedValue : Option String := none)
    (uniqueColumnValue : Option String := none)
    (transactionDateRange : Option (String × String) := none) : AnalyzeResult :=
  let _ := transactionDateRange
  let context := enrich db workspaceId
  let fileTypes := context.fileTypes
  if fileTypes.isEmpty then errResult "No file types found for workspace"
  else
    match fileTypes.find? (fun ft => (pyLower ft.name) = (pyLower fileTypeName)) with
    | none =>
        errResult ("File type " ++ fileTypeName ++ " not found in workspace")
    | some userFileType =>
        if !strOptTruthy (getUniqueColumn db userFileType.id) then
          errResult ("Unique column not found for file type " ++ fileTypeName)
        else
          let resolvedValue : Except String String :=
            if !strOptTruthy uniqueColumnValue then
              if outputFilePathProvided then
                if !strOptTruthy extractedValue then
                  .error "Could not extract the unique column from output file"
                else .ok (extractedValue.getD "")
              else
                .error "unique_column_value is required. Either provide it directly or provide output_file_path to extract it."
            else .ok (uniqueColumnValue.getD "")
          match resolvedValue with
          | .error e => errResult e
          | .ok value =>
              let start : List (String × List Record) × List String × List String :=
                ([], [], [])
              let step := fileTypes.foldl (fun acc ft =>
                let (fileTypeRecords, internalIds, misIds) := acc
                let sourceCategory := (pyLower ft.sourceCategory)
                let isInternal := pyIn "internal" sourceCategory
                let isMis := pyIn "bank" sourceCategory || pyIn "mis" sourceCategory
                let internalIds :=
                  if isInternal then internalIds ++ [ft.id] else internalIds
                let misIds :=
                  if !isInternal && isMis then misIds ++ [ft.id] else misIds
                let fileTypeRecords :=
                  if strOptTruthy (getUniqueColumn db ft.id) then
                    let records := fetchJournalRecords db ft.id [] none none none
                      (some (.vStr value))
                    if !records.isEmpty then fileTypeRecords ++ [(ft.id, records)]
                    else fileTypeRecords
                  else fileTypeRecords
                (fileTypeRecords, internalIds, misIds)) start
              let (fileTypeRecords, internalIds, misIds) := step
              let hasReconciled := fileTypeRecords.any (fun p =>
                p.2.any (fun r => pyGet r "recon_status" = some (.vStr "Reconciled")))
              let findingsA :=
                if hasReconciled then analyzeScenarioA db fileTypeRecords else []
              let hasMis := misIds.any
                (fun i => !(lookupBucket fileTypeRecords i).isEmpty)
              let hasInternal := internalIds.any
                (fun i => !(lookupBucket fileTypeRecords i).isEmpty)
              let findingsB :=
                if hasMis && !hasInternal then
                  analyzeScenarioB db fileTypeRecords misIds internalIds value
                else []
              let findingsC :=
                if hasMis && hasInternal then
                  analyzeScenarioC db workspaceId fileTypeRecords misIds internalIds
                    value
                else []
              { success := true
                error := none
                findings := findingsA ++ findingsB ++ findingsC
                scenariosDetected :=
                  (if !findingsA.isEmpty then ["A"] else []) ++
                  (if !findingsB.isEmpty then ["B"] else []) ++
                  (if !findingsC.isEmpty then ["C"] else [])
                fileTypeRecordCounts := fileTypeRecords.map (fun p => (p.1, p.2.length))
                uniqueColumnValue := some value }

/-! ## `RuleAnalyzer.analyze_rule_failures` -/

/-- `DataFetcher.fetch_records`: fetch the journal of every file type of
the workspace (optionally date/source/status-filtered) and bucket records
into internal vs MIS by file-type-name substrings.  Returns
`(all, internal, mis)`. -/
def fetchRecords (db : DB) (workspaceId : String)
    (transactionDateRange : Option (String × String) := none)
    (sourceId : Option String := none) (reconStatus : Option String := none) :
    List Record × List Record × List Record :=
  let fileTypes := (enrich db workspaceId).fileTypes
  fileTypes.foldl (fun acc ft =>
    let (allRecords, internalRecords, misRecords) := acc
    if strOptTruthy sourceId && ft.id ≠ sourceId.getD "" then acc
    else
      let records := fetchJournalRecords db ft.id []
        (transactionDateRange.map (·.1)) (transactionDateRange.map (·.2))
        reconStatus none
      let fileTypeName := (pyLower ft.name)
      let internalRecords :=
        if pyIn "internal" fileTypeName || pyIn "rzp" fileTypeName then
          internalRecords ++ records
        else internalRecords
      let misRecords :=
        if !(pyIn "internal" fileTypeName || pyIn "rzp" fileTypeName) &&
            (pyIn "mis" fileTypeName || pyIn "bank" fileTypeName) then
          misRecords ++ records
        else misRecords
      (allRecords ++ records, internalRecords, misRecords)) ([], [], [])

/-- Step 2 of `analyze_rule_failures` (lines 103-111) for one record: when
both sides are present, assign `record["_internal_data"]` and
`record["_mis_data"]` **on the caller's record object**; the flag says
whether the record was collected into `records_with_both`. -/
def annotateOne (db : DB) (workspaceId : String) (record : Record) :
    Record × Bool :=
  let (hasBoth, internalData, misData) :=
    hasBothInternalAndMis db workspaceId record
  match hasBoth, internalData, misData with
  | true, some idata, some mdata =>
      (pySet (pySet record "_internal_data" (Value.ofRecord idata))
        "_mis_data" (Value.ofRecord mdata), true)
  | _, _, _ => (record, false)

/-- The whole step-2 loop: every record as it stands after the loop (the
in-place mutation is observable by the caller), and the collected
`records_with_both` sub-list. -/
def annotateRecords (db : DB) (workspaceId : String) (records : List Record) :
    List Record × List Record :=
  let processed := records.map (annotateOne db workspaceId)
  (processed.map (·.1), (processed.filter (·.2)).map (·.1))

/-- The entity-id extraction inlined in `analyze_rule_failures` (lines
137-158); unlike `_get_internal_and_mis_data` it reads the unique column
from the `record_data` sub-dict only, and its fallback list is just
`entity_id` / `rzp_entity_id`. -/
def extractEntityForFinding (db : DB) (record : Record) : Option Value :=
  let fileTypeIdVal := pyGet record "file_type_id"
  let fromUniqueCol :=
    if optTruthy fileTypeIdVal then
      let uniqueCol :=
        match fileTypeIdVal with
        | some (.vStr fid) => getUniqueColumn db fid
        | _ => none
      if strOptTruthy uniqueCol then
        dictGet (pyGet record "record_data") (uniqueCol.getD "")
      else none
    else none
  if optTruthy fromUniqueCol then fromUniqueCol
  else
    let sub := pyOr (dictGet (pyGet record "record_data") "entity_id")
      (dictGet (pyGet record "record_data") "rzp_entity_id")
    if optTruthy sub then sub
    else pyOr (pyGet record "entity_id") (pyGet record "rzp_entity_id")

/-- One finding of `analyze_rule_failures` (the field set differs from the
Scenario C finding of `UnifiedAnalyzer`: it additionally reports the map
entry, its expected state/remarks and its sequence number). -/
structure RuleFailureFinding where
  recordId : Option Value := none
  entityId : Option Value := none
  failedRuleId : Option Nat := none
  failedRuleExpression : String
  ruleReconStateMapId : Option Nat := none
  expectedState : Option String := none
  expectedArtRemarks : Option String := none
  seqNumber : Option Int := none
  mismatchDetails : Record := []
  suggestedArtRemarks : String
  issue : String := "rule_matching_failure"
  ruleReconStateMap : RRSMEntry
  deriving DecidableEq, Repr

/-- The rule-evaluation loop of `analyze_rule_failures` (lines 182-218):
identical control flow to the Scenario C loop, different finding shape. -/
def ruleFailureLoop (rules : List RRSMEntry) (internalData misData : Record)
    (recordId entityId : Option Value) : List RuleFailureFinding :=
  match rules with
  | [] => []
  | r :: rest =>
      if r.resolvedExpression = "" then
        ruleFailureLoop rest internalData misData recordId entityId
      else
        let (rulePassed, mismatchDetails) :=
          evaluateRule r.resolvedExpression internalData misData
        if rulePassed then
          ruleFailureLoop rest internalData misData recordId entityId
        else
          [{ recordId := recordId, entityId := entityId,
             failedRuleId := some r.id,
             failedRuleExpression := r.resolvedExpression,
             ruleReconStateMapId := some r.id, expectedState := r.reconState,
             expectedArtRemarks := r.artRemarks, seqNumber := r.seqNumber,
             mismatchDetails := mismatchDetails,
             suggestedArtRemarks := mapToArtRemarks
               [("id", .vInt r.id), ("rule", .vStr r.resolvedExpression)]
               mismatchDetails,
             ruleReconStateMap := r }]

/-- Step 4 of `analyze_rule_failures` for one annotated record. -/
def ruleFailureFindingsForRecord (db : DB) (workspaceId : String)
    (context : Context) (record : Record) : List RuleFailureFinding :=
  let recordId := pyOr (pyGet record "id") (pyGet record "record_id")
  let entityId := extractEntityForFinding db record
  let (internalData, misData) := getInternalAndMisData db workspaceId record
  match internalData, misData with
  | some idata, some mdata =>
      if !idata.isEmpty && !mdata.isEmpty then
        let fileType1Id := pyOr (pyGet idata "file_type_id") (pyGet idata "source_id")
        let fileType2Id := pyOr (pyGet mdata "file_type_id") (pyGet mdata "source_id")
        let applicableRules :=
          getResolvedRulesForFileTypes context fileType1Id fileType2Id
        let applicableRules :=
          if applicableRules.isEmpty then context.resolvedRules else applicableRules
        ruleFailureLoop applicableRules idata mdata recordId entityId
      else []
  | _, _ => []

/-- The result of `analyze_rule_failures`. -/
structure RuleFailureResult where
  success : Bool
  error : Option String := none
  findings : List RuleFailureFinding := []
  totalUnreconciled : Nat := 0
  recordsWithBothData : Nat := 0
  ruleFailures : Nat := 0
  scenario : String := "C"
  deriving DecidableEq, Repr

/-- `RuleAnalyzer.analyze_rule_failures`.  The caller may supply the record
list; otherwise the journal's `Unreconciled` records are fetched.  The
value is the result *paired with the caller's record list as it stands
after the call*, making the in-place `record[...] = ...` assignments of
step 2 explicit (for a fetched list the second component is the engine's
own copy and unobservable).  The local fetch path always succeeds, so the
fetch-error early return is unreachable. -/
def analyzeRuleFailures (db : DB) (workspaceId : String)
    (unreconciledRecords : Option (List Record)) :
    RuleFailureResult × List Record :=
  let records :=
    match unreconciledRecords with
    | some rs => rs
    | none => (fetchRecords db workspaceId none none (some "Unreconciled")).1
  let (recordsAfter, recordsWithBoth) := annotateRecords db workspaceId records
  let context := enrich db workspaceId
  let findings := recordsWithBoth.foldl (fun acc r =>
    match ruleFailureFindingsForRecord db workspaceId context r with
    | [] => acc
    | fs => acc ++ fs) []
  ({ success := true
     findings := findings
     totalUnreconciled := records.length
     recordsWithBothData := recordsWithBoth.length
     ruleFailures := findings.length }, recordsAfter)

end Recon

namespace Recon

/-! ## Helper lemmas -/

/-- `_evaluate_rule` signals "passed" exactly as emptiness of its mismatch
dict (the source computes `rule_passed = len(mismatch_details) == 0`). -/
theorem evaluateRule_fst (e : String) (i m : Record) :
    (evaluateRule e i m).1 = (evaluateRule e i m).2.isEmpty := rfl

/-- The Scenario C loop on a head rule with a truthy expression and a
non-empty mismatch emits exactly that rule's finding and stops. -/
theorem scenarioCRuleLoop_head_fails (r : RRSMEntry) (rest : List RRSMEntry)
    (i m : Record) (u : String) (h1 : r.resolvedExpression ≠ "")
    (h2 : (evaluateRule r.resolvedExpression i m).2 ≠ []) :
    scenarioCRuleLoop (r :: rest) i m u =
      [scenarioCFinding u r (evaluateRule r.resolvedExpression i m).2] := by
  set mm := (evaluateRule r.resolvedExpression i m).2 with hmm
  have hpair : evaluateRule r.resolvedExpression i m = (mm.isEmpty, mm) := by
    rw [hmm]
    rfl
  have hempty : mm.isEmpty = false := by
    simpa [List.isEmpty_iff] using h2
  simp only [scenarioCRuleLoop, if_neg h1, hpair, hempty]
  simp

/-! ## Claim C4 -/

/-- C4: for a Scenario C classification over two or more applicable rules
in priority order whose first rule has a truthy resolved expression and a
failing (non-empty-mismatch) evaluation, while some later rule would also
fail, the loop emits exactly one finding, reporting the first rule's id
and resolved expression; no finding of any later rule is produced. -/
theorem c4_first_match_wins (r1 : RRSMEntry) (rest : List RRSMEntry)
    (internalData misData : Record) (uniqueColumnValue : String)
    (h1 : r1.resolvedExpression ≠ "")
    (h2 : (evaluateRule r1.resolvedExpression internalData misData).2 ≠ [])
    (_h3 : ∃ r2 ∈ rest, (evaluateRule r2.resolvedExpression internalData misData).2 ≠ []) :
    scenarioCRuleLoop (r1 :: rest) internalData misData uniqueColumnValue =
        [scenarioCFinding uniqueColumnValue r1
          (evaluateRule r1.resolvedExpression internalData misData).2] ∧
      (scenarioCRuleLoop (r1 :: rest) internalData misData uniqueColumnValue).map
          (·.failedRuleId) = [some r1.id] ∧
      (scenarioCRuleLoop (r1 :: rest) internalData misData uniqueColumnValue).map
          (·.failedRuleExpression) = [some r1.resolvedExpression] := by
  have h := scenarioCRuleLoop_head_fails r1 rest internalData misData
    uniqueColumnValue h1 h2
  refine ⟨h, ?_, ?_⟩ <;> simp [h, scenarioCFinding]

/-- Sample rules and records for the Scenario C witnesses. -/
def ruleEntryW1 : RRSMEntry :=
  { id := 21, workspaceId := "w", ruleExpression := "1",
    resolvedExpression := "(amount == counterpart_amount)", seqNumber := some 1 }

def ruleEntryW2 : RRSMEntry :=
  { id := 22, workspaceId := "w", ruleExpression := "2",
    resolvedExpression := "(rrn == counterpart_rrn)", seqNumber := some 2 }

def internalW : Record :=
  [("amount", .vInt 1000), ("rrn", .vStr "A")]

def misW : Record :=
  [("amount", .vInt 1100), ("rrn", .vStr "A")]

/-- Witness for C4 at two applicable rules over an amount-mismatched pair:
only the first rule's finding is produced. -/
theorem c4_first_match_wins_witness :
    scenarioCRuleLoop [ruleEntryW1, ruleEntryW2] internalW misW "K123" =
        [scenarioCFinding "K123" ruleEntryW1
          (evaluateRule ruleEntryW1.resolvedExpression internalW misW).2] ∧
      (scenarioCRuleLoop [ruleEntryW1, ruleEntryW2] internalW misW "K123").map
          (·.failedRuleId) = [some 21] ∧
      (scenarioCRuleLoop [ruleEntryW1, ruleEntryW2] internalW misW "K123").map
          (·.failedRuleExpression) = [some "(amount == counterpart_amount)"] := by
  have h := c4_first_match_wins ruleEntryW1 [ruleEntryW2] internalW misW "K123"
    (by decide) (by decide) ⟨ruleEntryW2, by decide, by decide⟩
  simpa [ruleEntryW1] using h

/-! ## Claim C5 -/

/-- C5: on a pair agreeing on the reference field (rrn, falling back to
payment_id) and disagreeing on the amount field (amount, falling back to
abs_amount), `_evaluate_rule` returns a mismatch dict whose key set is
exactly `amount_mismatch`, recording the internal and MIS amounts. -/
theorem c5_amount_only_mismatch (e : String) (internalData misData : Record)
    (a b : Value) (ha : resolveAmount internalData = some a)
    (hb : resolveAmount misData = some b) (hne : a ≠ b)
    (hrrn : resolveRrn internalData = resolveRrn misData) :
    (evaluateRule e internalData misData).2 =
      [("amount_mismatch", mismatchPair (some a) (some b))] := by
  simp [evaluateRule, ha, hb, hne, hrrn]

/-- Witness for C5 on records differing only in amount. -/
theorem c5_amount_only_mismatch_witness :
    (evaluateRule "amount == counterpart_amount AND rrn == counterpart_rrn"
        internalW misW).2 =
      [("amount_mismatch", mismatchPair (some (.vInt 1000)) (some (.vInt 1100)))] :=
  c5_amount_only_mismatch _ internalW misW (.vInt 1000) (.vInt 1100)
    (by decide) (by decide) (by decide) (by decide)

/-! ## Claim C6 -/

/-- The amount comparison as `_evaluate_rule` performs it: a discrepancy is
only possible when both sides carry a non-`None` amount (the source
comment: "Only compare if both are not None"). -/
def amountsAgreeWhenChecked (internalData misData : Record) : Bool :=
  match resolveAmount internalData, resolveAmount misData with
  | some a, some b => decide (a = b)
  | _, _ => true

/-- C6: equal amount fields and equal reference fields give
`rule_passed = True` with an empty mismatch dict; and the mismatch dict is
empty iff every checked field agrees (amounts as checked — both present
and equal, or not compared — and references equal). -/
theorem c6_pass_iff_fields_agree (e : String) (internalData misData : Record) :
    (resolveAmount internalData = resolveAmount misData →
      resolveRrn internalData = resolveRrn misData →
      evaluateRule e internalData misData = (true, [])) ∧
    ((evaluateRule e internalData misData).2 = [] ↔
      (amountsAgreeWhenChecked internalData misData = true ∧
        resolveRrn internalData = resolveRrn misData)) := by
  constructor
  · intro hamount hrrn
    cases hma : resolveAmount misData <;>
      simp [evaluateRule, hamount, hma, hrrn]
  · cases hia : resolveAmount internalData <;>
      cases hma : resolveAmount misData <;>
      by_cases hrrn : resolveRrn internalData = resolveRrn misData <;>
      simp [evaluateRule, amountsAgreeWhenChecked, hia, hma, hrrn]

/-- Witness for C6 on records with identical amount and reference fields. -/
theorem c6_pass_iff_fields_agree_witness :
    evaluateRule "1 and 2" [("amount", Value.vInt 7), ("rrn", Value.vStr "R")]
      [("abs_amount", Value.vInt 7), ("payment_id", Value.vStr "R")] = (true, []) :=
  (c6_pass_iff_fields_agree "1 and 2" _ _).1 (by decide) (by decide)

/-! ## Claim C10 -/

/-- C10: `_evaluate_rule` ignores the rule expression it is given — any two
expressions produce identical results — and its outcome depends only on
the resolved amount and reference fields of the two records. -/
theorem c10_expression_independent :
    (∀ (e1 e2 : String) (internalData misData : Record),
      evaluateRule e1 internalData misData = evaluateRule e2 internalData misData) ∧
    (∀ (e e' : String) (i i' m m' : Record),
      resolveAmount i = resolveAmount i' → resolveRrn i = resolveRrn i' →
      resolveAmount m = resolveAmount m' → resolveRrn m = resolveRrn m' →
      evaluateRule e i m = evaluateRule e' i' m') := by
  refine ⟨fun e1 e2 i m => rfl, ?_⟩
  intro e e' i i' m m' ha1 hr1 ha2 hr2
  simp [evaluateRule, ha1, hr1, ha2, hr2]

/-- Witness for C10: two different expressions, and two record pairs that
agree on the compared fields but differ elsewhere, give equal results. -/
theorem c10_expression_independent_witness :
    evaluateRule "1 and 2" internalW misW =
      evaluateRule "some other expression"
        (internalW ++ [("extra", Value.vInt 9)]) (misW ++ [("note", Value.vStr "x")]) :=
  c10_expression_independent.2 "1 and 2" "some other expression"
    internalW (internalW ++ [("extra", Value.vInt 9)])
    misW (misW ++ [("note", Value.vStr "x")])
    (by decide) (by decide) (by decide) (by decide)

end Recon

namespace Recon

/-! ## Claim C3 -/

/-- A map entry whose expression combines sub-rule 1 with the unrelated
numeric literal 100. -/
def entryLiteral100 : RRSMEntry :=
  { id := 11, workspaceId := "w", ruleExpression := "1 and 100",
    seqNumber := some 1 }

/-- Sub-rule 1. -/
def subRule1 : RuleRow :=
  { id := 1, workspaceId := "w", rule := "a = b" }

/-- Counterexample to C3: resolving `"1 and 100"` with sub-rule
`1 ↦ "a = b"` substitutes *inside* the unrelated literal `100` (plain
substring replacement), producing `"(a = b) and (a = b)00"`; the digits
`100` do not survive, and the exact-token result `"(a = b) and 100"` is
not produced. -/
theorem c3_counterexample :
    (resolveRuleExpressions [entryLiteral100] [subRule1]).map
        (·.resolvedExpression) = ["(a = b) and (a = b)00"] ∧
      (resolveRuleExpressions [entryLiteral100] [subRule1]).map
        (·.resolvedExpression) ≠ ["(a = b) and 100"] ∧
      pyIn "100" "(a = b) and (a = b)00" = false := by
  refine ⟨by decide, by decide, by decide⟩

/-- C3 as amended: resolution substitutes by plain substring replacement,
so whenever a resolvable id's digits occur inside a longer numeric
literal, that literal is corrupted.  For every sub-rule text `t`,
resolving the expression `"1 and 100"` against a rules dict binding id 1
to `t` yields `"(t) and (t)00"` — the literal `100` is rewritten. -/
theorem c3_substring_replacement_corrupts_literals (t : String) (e : RRSMEntry)
    (r : RuleRow) (he : e.ruleExpression = "1 and 100") (hid : r.id = 1)
    (hr : r.rule = t) :
    (resolveRuleExpressions [e] [r]).map (·.resolvedExpression) =
      ["(" ++ t ++ ") and (" ++ t ++ ")00"] := by
  have hfind1 : findRule [r] 1 = some r := by
    simp [findRule, List.find?, hid]
  have hfind100 : findRule [r] 100 = none := by
    simp [findRule, List.find?, hid]
  have hids : extractRuleIds "1 and 100" = [1, 100] := by decide
  have hrep : pyReplace "1 and 100" "1" ("(" ++ t ++ ")") =
      ("(" ++ t ++ ")") ++ (" and " ++ (("(" ++ t ++ ")") ++ "00")) := rfl
  have hassoc : ("(" ++ t ++ ")") ++ (" and " ++ (("(" ++ t ++ ")") ++ "00")) =
      "(" ++ t ++ ") and (" ++ t ++ ")00" := by
    apply String.ext
    simp only [String.data_append, List.append_assoc]
    rfl
  have hne : e.ruleExpression ≠ "" := by rw [he]; decide
  simp only [resolveRuleExpressions, List.filterMap, he]
  simp only [if_neg hne, he] at *
  simp [hids, hfind1, hfind100, hr, hrep, hassoc]
  rw [show (toString (1 : Nat)) = "1" from rfl, hrep, hassoc]

/-- Witness for the amended C3, at sub-rule text `"a = b"`. -/
theorem c3_substring_replacement_corrupts_literals_witness :
    (resolveRuleExpressions [entryLiteral100] [subRule1]).map
      (·.resolvedExpression) = ["(a = b) and (a = b)00"] :=
  c3_substring_replacement_corrupts_literals "a = b" entryLiteral100 subRule1
    rfl rfl rfl

/-! ## Claim C7 -/

/-- A map entry whose expression combines sub-rule 2 with the id 205, which
has no entry in the rules dict. -/
def entryUnresolvable205 : RRSMEntry :=
  { id := 12, workspaceId := "w", ruleExpression := "2 and 205",
    seqNumber := some 1 }

/-- Sub-rule 2. -/
def subRule2 : RuleRow :=
  { id := 2, workspaceId := "w", rule := "x == y" }

/-- Counterexample to C7: resolution does complete, but the unresolvable id
205 does *not* remain as a literal number — substituting sub-rule 2
rewrites the `2` inside `205`, leaving `"(x == y) and (x == y)05"`, in
which the digits `205` no longer occur. -/
theorem c7_counterexample :
    (resolveRuleExpressions [entryUnresolvable205] [subRule2]).map
        (·.resolvedExpression) = ["(x == y) and (x == y)05"] ∧
      extractRuleIds entryUnresolvable205.ruleExpression = [2, 205] ∧
      findRule [subRule2] 205 = none ∧
      pyIn "205" "(x == y) and (x == y)05" = false := by
  refine ⟨by decide, by decide, by decide, by decide⟩

/-- Folding the substitution over ids none of which resolves leaves the
expression untouched. -/
theorem foldl_no_resolve (rules : List RuleRow) (ids : List Nat) (acc : String)
    (h : ∀ n ∈ ids, findRule rules n = none) :
    ids.foldl (fun acc ruleId =>
      match findRule rules ruleId with
      | some r => pyReplace acc (toString ruleId) ("(" ++ r.rule ++ ")")
      | none => acc) acc = acc := by
  induction ids generalizing acc with
  | nil => rfl
  | cons n rest ih =>
      have hn := h n (by simp)
      simp only [List.foldl, hn]
      exact ih acc (fun m hm => h m (by simp [hm]))

/-- C7 as amended: resolution is total and never drops a (truthy-
expression) entry, and when *no* extracted id of the expression resolves,
the expression is returned verbatim — every unresolvable id then remains
as a literal number.  (When some other id does resolve, its substring
substitution can rewrite an unresolvable id, as the counterexample
shows.) -/
theorem c7_unresolved_ids_left_literal (e : RRSMEntry) (rules : List RuleRow)
    (hne : e.ruleExpression ≠ "")
    (h : ∀ n ∈ extractRuleIds e.ruleExpression, findRule rules n = none) :
    (resolveRuleExpressions [e] rules).map (·.resolvedExpression) =
      [e.ruleExpression] := by
  simp only [resolveRuleExpressions, List.filterMap, if_neg hne]
  simp [foldl_no_resolve rules _ _ h]

/-- Witness for the amended C7: an expression whose ids 7 and 8 are absent
from the rules dict resolves to itself. -/
theorem c7_unresolved_ids_left_literal_witness :
    (resolveRuleExpressions
        [{ id := 13, workspaceId := "w", ruleExpression := "7 or 8",
           seqNumber := some 1 }] [subRule2]).map (·.resolvedExpression) =
      ["7 or 8"] :=
  c7_unresolved_ids_left_literal _ [subRule2] (by decide) (by decide)

end Recon

namespace Recon

/-! ## Claim C8 -/

/-- Appending to a non-empty string is non-empty. -/
theorem str_append_ne_empty (a b : String) (ha : a ≠ "") : a ++ b ≠ "" := by
  intro hcontra
  apply ha
  have hd := congrArg String.data hcontra
  rw [String.data_append] at hd
  exact String.ext (List.append_eq_nil.mp hd).1

/-- Every early error return of `analyze` is a real failure: `success` is
`False`, the error text is non-empty, and no findings are reported. -/
theorem errResult_isFailure (msg : String) (h : msg ≠ "") :
    (errResult msg).success = false ∧
      (∃ e, (errResult msg).error = some e ∧ e ≠ "") ∧
      (errResult msg).findings = [] :=
  ⟨rfl, ⟨msg, rfl, h⟩, rfl⟩

/-- C8: when the requested file-type name matches no file type of the
workspace (case-insensitively), or when no unique-column value is provided
or extractable, `analyze` returns `success = False` with a non-empty error
description and an empty findings list — never a partial success. -/
theorem c8_failure_is_explicit (db : DB) (workspaceId fileTypeName : String)
    (outputFilePathProvided : Bool) (extractedValue uniqueColumnValue : Option String)
    (dateRange : Option (String × String))
    (h : (∀ ft ∈ (enrich db workspaceId).fileTypes,
            (pyLower ft.name) ≠ (pyLower fileTypeName)) ∨
         (strOptTruthy uniqueColumnValue = false ∧
           (outputFilePathProvided = false ∨ strOptTruthy extractedValue = false))) :
    (analyze db workspaceId fileTypeName outputFilePathProvided extractedValue
        uniqueColumnValue dateRange).success = false ∧
      (∃ e, (analyze db workspaceId fileTypeName outputFilePathProvided
          extractedValue uniqueColumnValue dateRange).error = some e ∧ e ≠ "") ∧
      (analyze db workspaceId fileTypeName outputFilePathProvided extractedValue
          uniqueColumnValue dateRange).findings = [] := by
  simp only [analyze]
  split
  next => exact errResult_isFailure _ (by decide)
  next hne =>
    split
    next hfind =>
      exact errResult_isFailure _
        (str_append_ne_empty _ _ (str_append_ne_empty "File type " _ (by decide)))
    next uft hfind =>
      split
      next hcol =>
        exact errResult_isFailure _
          (str_append_ne_empty _ _
            (str_append_ne_empty "Unique column not found for file type " _
              (by decide)))
      next hcol =>
        rcases h with hL | ⟨hu, hpe⟩
        · exfalso
          have hmem := List.mem_of_find?_eq_some hfind
          have hp := List.find?_some hfind
          exact hL uft hmem (by simpa using hp)
        · rcases hpe with hout | hext
          · simp only [hu, hout, Bool.not_false, if_true, Bool.false_eq_true,
              if_false]
            exact errResult_isFailure _ (by decide)
          · cases houtP : outputFilePathProvided
            · simp only [hu, houtP, Bool.not_false, if_true, Bool.false_eq_true,
                if_false]
              exact errResult_isFailure _ (by decide)
            · simp only [hu, hext, houtP, Bool.not_false, if_true]
              exact errResult_isFailure _ (by decide)

/-- A file type for the C8 witness workspace. -/
def ftC8w : FileType :=
  { id := "ft1", workspaceId := "w1", name := "internal_report",
    sourceCategory := "internal", fileMetadata := [("unique_column", "pid")] }

/-- A one-file-type workspace for the C8 witness. -/
def dbC8w : DB :=
  { fileTypes := [ftC8w] }

/-- Witness for C8: a workspace with one file type, asked about a name that
matches nothing, fails explicitly. -/
theorem c8_failure_is_explicit_witness :
    (analyze dbC8w "w1" "no_such_type" false none (some "k") none).success = false ∧
      (∃ e, (analyze dbC8w "w1" "no_such_type" false none (some "k") none).error =
          some e ∧ e ≠ "") ∧
      (analyze dbC8w "w1" "no_such_type" false none (some "k") none).findings = [] :=
  c8_failure_is_explicit dbC8w "w1" "no_such_type" false none (some "k") none
    (Or.inl (by decide))

end Recon

namespace Recon

/-! ## Claim C9 -/

/-- Assigning one key leaves every other key's `.get` unchanged. -/
theorem pyGet_pySet_ne (r : Record) (k k' : String) (v : Value) (h : k' ≠ k) :
    pyGet (pySet r k v) k' = pyGet r k' := by
  induction r with
  | nil => simp [pySet, pyGet, Ne.symm h]
  | cons p rest ih =>
      obtain ⟨pk, pv⟩ := p
      by_cases hk : pk = k
      · have hne : pk ≠ k' := fun he => h (he.symm.trans hk)
        simp [pySet, pyGet, hk, hne, Ne.symm h]
      · by_cases hk' : pk = k' <;> simp [pySet, pyGet, hk, hk', h, ih]

/-- The step-2 annotation changes no key other than `_internal_data` and
`_mis_data` on a record. -/
theorem annotateOne_preserves (db : DB) (workspaceId : String) (record : Record)
    (k : String) (h1 : k ≠ "_internal_data") (h2 : k ≠ "_mis_data") :
    pyGet (annotateOne db workspaceId record).1 k = pyGet record k := by
  simp only [annotateOne]
  split
  · rw [pyGet_pySet_ne _ _ _ _ h2, pyGet_pySet_ne _ _ _ _ h1]
  · rfl

/-- The record list handed back by `analyze_rule_failures` is the
per-record annotation of the input. -/
theorem analyzeRuleFailures_records_eq (db : DB) (workspaceId : String)
    (records : List Record) :
    (analyzeRuleFailures db workspaceId (some records)).2 =
      records.map (fun r => (annotateOne db workspaceId r).1) := by
  simp [analyzeRuleFailures, annotateRecords]

/-- C9 as amended: `analyze_rule_failures` mutates caller-supplied records
only by adding the `_internal_data` / `_mis_data` annotation keys; every
other key of every record reads back unchanged after the call (and the
record list keeps its length and order). -/
theorem c9_mutation_only_annotation_keys (db : DB) (workspaceId : String)
    (records : List Record) (k : String) (h1 : k ≠ "_internal_data")
    (h2 : k ≠ "_mis_data") :
    List.Forall₂ (fun r r' => pyGet r' k = pyGet r k) records
      (analyzeRuleFailures db workspaceId (some records)).2 := by
  rw [analyzeRuleFailures_records_eq]
  induction records with
  | nil => exact List.Forall₂.nil
  | cons r rest ih =>
      exact List.Forall₂.cons (annotateOne_preserves db workspaceId r k h1 h2) ih

/-- The internal file type of the C9 workspace. -/
def ftC9i : FileType :=
  { id := "ft9i", workspaceId := "w9", name := "rzp_internal_report",
    sourceCategory := "internal", fileMetadata := [("unique_column", "pid")] }

/-- The MIS file type of the C9 workspace. -/
def ftC9m : FileType :=
  { id := "ft9m", workspaceId := "w9", name := "bank_mis_report",
    sourceCategory := "bank_mis", fileMetadata := [("unique_column", "pid")] }

/-- The internal journal row for key `k9`. -/
def jC9i : JournalRow :=
  { fileTypeId := "ft9i",
    recordData := [("pid", .vStr "k9"), ("amount", .vInt 5), ("rrn", .vStr "r1")],
    reconStatus := some "Unreconciled", entityId := some "e9i" }

/-- The MIS journal row for key `k9`. -/
def jC9m : JournalRow :=
  { fileTypeId := "ft9m",
    recordData := [("pid", .vStr "k9"), ("amount", .vInt 7), ("rrn", .vStr "r1")],
    reconStatus := some "Unreconciled", entityId := some "e9m" }

/-- A workspace where key `k9` has both an internal and a MIS record. -/
def dbC9 : DB :=
  { fileTypes := [ftC9i, ftC9m], journal := [jC9i, jC9m] }

/-- A caller-supplied source record for key `k9`. -/
def rec9 : Record :=
  [("file_type_id", .vStr "ft9i"), ("pid", .vStr "k9")]

/-- Counterexample to C9: after `analyze_rule_failures`, the caller's
record is no longer equal to what was passed in — it has gained an
`_internal_data` key (and `_mis_data`), i.e. the engine mutated a
caller-supplied source record. -/
theorem c9_counterexample :
    (analyzeRuleFailures dbC9 "w9" (some [rec9])).2 ≠ [rec9] ∧
      pyGet rec9 "_internal_data" = none ∧
      (analyzeRuleFailures dbC9 "w9" (some [rec9])).2.map
        (fun r => (pyGet r "_internal_data").isSome) = [true] := by
  refine ⟨by decide, by decide, by decide⟩

/-- Witness for the amended C9: on the concrete workspace, the mutated
record still agrees with the original on the `pid` key. -/
theorem c9_mutation_only_annotation_keys_witness :
    List.Forall₂ (fun r r' => pyGet r' "pid" = pyGet r "pid") [rec9]
      (analyzeRuleFailures dbC9 "w9" (some [rec9])).2 :=
  c9_mutation_only_annotation_keys dbC9 "w9" [rec9] "pid" (by decide) (by decide)

/-! ## Claim C1 -/

/-- The internal file type of the C1 workspace. -/
def ftC1 : FileType :=
  { id := "ft_int", workspaceId := "w1", name := "internal_report",
    sourceCategory := "internal", fileMetadata := [("unique_column", "pid")] }

/-- A journal record for key `k1`, reconciled, with entity id `e7`. -/
def jC1 : JournalRow :=
  { fileTypeId := "ft_int",
    recordData := [("pid", .vStr "k1"), ("amount", .vInt 100)],
    reconStatus := some "Reconciled", reconAt := some "2025-01-01T10:00:00",
    entityId := some "e7", txnDate := some "2025-12-14" }

/-- The transactions store holds the row for entity `e7` with a *non-null*
`reconciled_at`. -/
def tC1 : TransactionRow :=
  { id := "t1", entityId := some "e7", reconciledAt := some "2025-01-02T00:00:00" }

/-- The C1 state: a reconciled journal record whose downstream transaction
row exists and carries a confirmation timestamp. -/
def dbC1 : DB :=
  { fileTypes := [ftC1], journal := [jC1], transactions := [tC1] }

/-- C1 failing input, evaluated: although the transactions store contains
the row for entity `e7` with a non-null `reconciled_at`, the analyzer
emits a Scenario A finding (`transaction_record_missing`) and reports
scenario `A` — the lookup filters on `reconciled_at IS NULL` and passes
the entity id string where a list is expected, so the existing row can
never be seen. -/
theorem c1_code_emits_scenario_a_finding :
    (analyze dbC1 "w1" "internal_report" false none (some "k1") none).findings.map
        (·.issue) = ["transaction_record_missing"] ∧
      (analyze dbC1 "w1" "internal_report" false none (some "k1")
        none).scenariosDetected = ["A"] ∧
      dbC1.transactions.map (fun t => (t.entityId, t.reconciledAt.isSome)) =
        [(some "e7", true)] ∧
      dbC1.journal.map (fun j => (j.entityId, j.reconStatus)) =
        [(some "e7", some "Reconciled")] := by
  refine ⟨by decide, by decide, by decide, by decide⟩

/-! ## Claim C2 -/

/-- The MIS file type of the C2 workspace. -/
def ftC2 : FileType :=
  { id := "ft_mis", workspaceId := "w1", name := "bank_payment_report",
    sourceCategory := "bank_mis", fileMetadata := [("unique_column", "pid")] }

/-- A MIS-only journal record for the two-character key `ab`. -/
def jC2 : JournalRow :=
  { fileTypeId := "ft_mis",
    recordData := [("pid", .vStr "ab"), ("amount", .vInt 500)],
    reconStatus := some "Unreconciled", entityId := some "eM",
    txnDate := some "2025-12-14" }

/-- The payments store holds the row for key `ab` whose two update
timestamps differ by 9000 seconds (> 3600). -/
def pC2 : PaymentRow :=
  { id := "ab", updatedAt := some 10000, datalakeUpdatedAt := some 1000 }

/-- The C2 state. -/
def dbC2 : DB :=
  { fileTypes := [ftC2], journal := [jC2], payments := [pC2] }

/-- The same stores with a one-character key `a`, where the characterwise
`IN` lookup accidentally finds the payment row. -/
def jC2single : JournalRow :=
  { fileTypeId := "ft_mis", recordData := [("pid", .vStr "a")],
    reconStatus := some "Unreconciled", entityId := some "eM" }

/-- Payment row with id `a` and the same 9000-second skew. -/
def pC2single : PaymentRow :=
  { id := "a", updatedAt := some 10000, datalakeUpdatedAt := some 1000 }

/-- The single-character variant of the C2 state. -/
def dbC2single : DB :=
  { fileTypes := [ftC2], journal := [jC2single], payments := [pC2single] }

/-- C2 failing input, evaluated: the payments store holds the row for key
`ab` with a 9000-second timestamp skew, yet Scenario B reports
`payment_not_found` instead of `data_lag_detected` — the payment lookup
receives the key string where a list is expected, so `id IN (...)` tests
the key's characters and misses the row whenever the key has more than one
character.  With a one-character key the very same stores produce
`data_lag_detected` with `lag_seconds = 9000`, showing the intended lag
path. -/
theorem c2_code_emits_payment_not_found :
    (analyze dbC2 "w1" "bank_payment_report" false none (some "ab") none).findings.map
        (·.issue) = ["payment_not_found"] ∧
      (analyze dbC2 "w1" "bank_payment_report" false none (some "ab")
        none).scenariosDetected = ["B"] ∧
      dbC2.payments.map (fun p => (p.id, p.updatedAt, p.datalakeUpdatedAt)) =
        [("ab", some 10000, some 1000)] ∧
      (3600 : Int) < |(10000 : Int) - 1000| ∧
      (analyze dbC2single "w1" "bank_payment_report" false none (some "a")
        none).findings.map (fun f => (f.issue, f.lagSeconds)) =
        [("data_lag_detected", some 9000)] := by
  refine ⟨by decide, by decide, by decide, by decide, by decide⟩

end Recon
